import Mathlib

/-!
Verification of the `worker` background-job engine (qor5-admin).

The definitions below are a shallow embedding of the engine code in
`worker` (the `Builder` orchestration file): the job/instance rows, the
queue-backend calls, and the event handlers `eventAbortJob`,
`eventRerunJob`, `eventUpdateJob`, `eventUpdateJobProgressing`, the
editing `SaveFunc`, `doAbortJob`, `NewJob`, and the render helper
`jobProgressing`.  Parts of the repository that the engine calls but
whose sources are not available (the go-que queue adapter, the
`JobBuilder` instance persistence helpers, the status-constant
declarations, the permission verifier) are modelled from the spec and
are marked `Modelled from the spec:` in their doc comments.
-/

namespace Worker

/-- Modelled from the spec: the status-constant declarations are not in the
available sources; the spec fixes the literal strings
`New, Scheduled, Running, Cancelled, Done, Exception, Killed`. -/
def JobStatusNew : String := "New"

/-- Modelled from the spec: literal status string. -/
def JobStatusScheduled : String := "Scheduled"

/-- Modelled from the spec: literal status string. -/
def JobStatusRunning : String := "Running"

/-- Modelled from the spec: literal status string. -/
def JobStatusCancelled : String := "Cancelled"

/-- Modelled from the spec: literal status string. -/
def JobStatusDone : String := "Done"

/-- Modelled from the spec: literal status string. -/
def JobStatusException : String := "Exception"

/-- Modelled from the spec: literal status string. -/
def JobStatusKilled : String := "Killed"

/-- Terminal statuses per the spec glossary: Cancelled, Done, Exception,
Killed — no further transitions without a new instance. -/
def isTerminal (st : String) : Bool :=
  st == JobStatusCancelled || st == JobStatusDone ||
  st == JobStatusException || st == JobStatusKilled

/-- The persisted `QorJob` row: `{id, job (type name), status}`
(`CreatedAt` omitted; no claim mentions it). -/
structure QorJob where
  id : Nat
  job : String
  status : String
deriving DecidableEq, Repr

/-- The persisted `QorJobInstance` row: one execution attempt tied to a
Job id, holding the serialized args, status, progress, log and
progress text. -/
structure QorJobInstance where
  qorJobId : Nat
  job : String
  args : String
  status : String
  progress : Nat
  log : String
  progressText : String
deriving DecidableEq, Repr

/-- The persisted store plus the queue backend's durable state.
`queue` holds the ids of units of work that exist and are not terminal
(enqueued or running); `killRequested` records ids for which a forcible
termination has been requested (the request is asynchronous, so the
corresponding instance keeps its status until the backend confirms).
`instances` is newest-first: the head of the matching sublist is the
current instance of a job id. -/
structure EngineState where
  nextId : Nat
  jobs : List QorJob
  instances : List QorJobInstance
  queue : List Nat
  killRequested : List Nat
deriving DecidableEq, Repr

/-- Failure oracles for the queue backend calls: the spec's error taxonomy
lists enqueue/remove/kill failures as backend errors any call may hit. -/
structure Backend where
  addFails : Bool
  removeFails : Bool
  killFails : Bool
deriving DecidableEq, Repr

/-- The engine `Builder`'s registration state: whether `Configure` has run
and the list of registered job type names. -/
structure Builder where
  configured : Bool
  jbs : List String
deriving DecidableEq, Repr

/-- `Builder.NewJob`: registering a job type.  The source panics when the
builder is already configured or when the name is already registered;
panics are modelled as `Except.error`. -/
def NewJob (b : Builder) (name : String) : Except String Builder :=
  if b.configured then
    .error ("Job should be registered before Worker configured into admin, but "
      ++ name ++ " is registered after that")
  else if name ∈ b.jbs then
    .error ("worker " ++ name ++ " already exists")
  else
    .ok { b with jbs := b.jbs ++ [name] }

/-- The instances currently persisted for a job id (newest first). -/
def instancesFor (s : EngineState) (id : Nat) : List QorJobInstance :=
  s.instances.filter (fun i => i.qorJobId == id)

/-- How many non-terminal instance rows exist for a job id. -/
def nonTerminalInstanceCount (s : EngineState) (id : Nat) : Nat :=
  ((instancesFor s id).filter (fun i => !(isTerminal i.status))).length

/-- Modelled from the spec: `JobBuilder.getJobInstance` is not in the
available sources; it loads the current (most recent) Job Instance for
the job id from the store, failing when none exists. -/
def getJobInstance (s : EngineState) (id : Nat) : Except String QorJobInstance :=
  match s.instances.find? (fun i => i.qorJobId == id) with
  | some i => .ok i
  | none => .error "record not found"

/-- Modelled from the spec: `getModelQorJobInstance` is not in the
available sources; like `getJobInstance` it is a read of the current
instance row for the job id. -/
def getModelQorJobInstance (s : EngineState) (id : Nat) : Except String QorJobInstance :=
  getJobInstance s id

/-- The fresh instance row `newJobInstance` builds: same job id, the given
serialized args, status New, empty progress/log. -/
def mkInstance (id : Nat) (jobName args : String) : QorJobInstance :=
  { qorJobId := id, job := jobName, args := args, status := JobStatusNew,
    progress := 0, log := "", progressText := "" }

/-- Modelled from the spec: `JobBuilder.newJobInstance` is not in the
available sources; it persists a brand-new Job Instance row for the job
id with the given args and status New, and returns it.  The write goes
through the builder's own db handle (it is persisted immediately, not
deferred to any enclosing transaction). -/
def newJobInstance (s : EngineState) (id : Nat) (jobName args : String) :
    QorJobInstance × EngineState :=
  (mkInstance id jobName args,
   { s with instances := mkInstance id jobName args :: s.instances })

/-- Set the status of the current (first, newest) instance row matching
the job id. -/
def setInstanceStatus : List QorJobInstance → Nat → String → List QorJobInstance
  | [], _, _ => []
  | i :: rest, id, st =>
    if i.qorJobId == id then { i with status := st } :: rest
    else i :: setInstanceStatus rest id st

/-- Modelled from the spec: the queue backend's `Add` is not in the
available sources; it enqueues a new unit keyed by the instance's job id
and fails if a unit for that id already exists and is not terminal. -/
def qAdd (bk : Backend) (inst : QorJobInstance) (s : EngineState) :
    Except String Unit × EngineState :=
  if bk.addFails then
    (.error "queue: add failed", s)
  else if inst.qorJobId ∈ s.queue then
    (.error "queue: a unit for this id already exists and is not terminal", s)
  else
    (.ok (), { s with queue := inst.qorJobId :: s.queue })

/-- Modelled from the spec: the queue backend's `Remove` is not in the
available sources; it removes a not-yet-started unit (one whose instance
is New or Scheduled) and marks the instance Cancelled, failing when the
unit is missing or already started. -/
def qRemove (bk : Backend) (inst : QorJobInstance) (s : EngineState) :
    Except String Unit × EngineState :=
  if bk.removeFails then
    (.error "queue: remove failed", s)
  else if inst.qorJobId ∈ s.queue ∧
      (inst.status = JobStatusNew ∨ inst.status = JobStatusScheduled) then
    (.ok (), { s with queue := s.queue.erase inst.qorJobId,
                      instances := setInstanceStatus s.instances inst.qorJobId JobStatusCancelled })
  else
    (.error "queue: unit not found or already started", s)

/-- Modelled from the spec: the queue backend's `Kill` is not in the
available sources; it requests forcible termination of a running unit
and is asynchronous — it returns once the request is accepted, not once
termination is confirmed, so the instance's status is left unchanged. -/
def qKill (bk : Backend) (inst : QorJobInstance) (s : EngineState) :
    Except String Unit × EngineState :=
  if bk.killFails then
    (.error "queue: kill failed", s)
  else if inst.qorJobId ∈ s.queue ∧ inst.status = JobStatusRunning then
    (.ok (), { s with killRequested := inst.qorJobId :: s.killRequested })
  else
    (.error "queue: unit is not running", s)

/-- `Builder.doAbortJob`: dispatch on the instance's current status —
Running goes to `q.Kill`, New/Scheduled go to `q.Remove`, anything else
is an error with no call made. -/
def doAbortJob (bk : Backend) (inst : QorJobInstance) (s : EngineState) :
    Except String Unit × EngineState :=
  if inst.status = JobStatusRunning then
    qKill bk inst s
  else if inst.status = JobStatusNew ∨ inst.status = JobStatusScheduled then
    qRemove bk inst s
  else
    (.error ("job status is " ++ inst.status ++ ", cannot be aborted"), s)

/-- The rendered abort/rerun buttons of the progressing view. -/
structure ProgressButtons where
  showAbort : Bool
  showRerun : Bool
deriving DecidableEq, Repr

/-- The data the `jobProgressing` view renders: the status line
`"<status> (<progress>%)"`, the progress-bar value, the log lines in
display order together with the column-reverse flag, the optional raw
progress-text block, and the buttons block that is present only when the
caller may edit. -/
structure ProgressingBody where
  statusText : String
  progressValue : Nat
  logLines : List String
  reverseStyle : Bool
  progressTextBlock : Option String
  buttons : Option ProgressButtons
deriving DecidableEq, Repr

/-- `jobProgressing`: builds the progressing view from the instance data.
The log is split on newlines; with more than 18 lines the source emits
them in reverse order inside a column-reverse flex box.  The buttons
block is rendered only under `canEdit`; inside it the abort button shows
while the status is New or Running and the rerun button shows when the
status is Done. -/
def jobProgressing (canEdit : Bool) (id : Nat) (job status : String)
    (progress : Nat) (log progressText : String) : ProgressingBody :=
  let logs := log.splitOn "\n"
  let rev := logs.length > 18
  let logLines := if rev then logs.reverse else logs
  let inRefresh := status == JobStatusNew || status == JobStatusRunning
  { statusText := status ++ " (" ++ toString progress ++ "%)"
  , progressValue := progress
  , logLines := logLines
  , reverseStyle := rev
  , progressTextBlock := if progressText == "" then none else some progressText
  , buttons :=
      if canEdit then
        some { showAbort := inRefresh, showRerun := status == JobStatusDone }
      else none }

/-- The part of a `web.EventResponse` the embedded handlers produce:
whether the page reloads, the `VarsScript` string, and the progressing
body for the progressing event. -/
structure EventResponse where
  reload : Bool
  varsScript : String
  body : Option ProgressingBody
deriving DecidableEq, Repr

/-- `Builder.eventAbortJob`: permission check, job-builder lookup (a
missing name is a `mustGetJobBuilder` panic, modelled as an error), load
the current instance, `doAbortJob`, then reload.  `canEdit` is the
outcome of the external `editIsAllowed` authorization check (not in the
available sources). -/
def eventAbortJob (b : Builder) (bk : Backend) (canEdit : Bool)
    (qorJobID : Nat) (qorJobName : String) (s : EngineState) :
    Except String EventResponse × EngineState :=
  if ¬ canEdit then (.error "permission denied", s)
  else if qorJobName ∉ b.jbs then (.error ("no job " ++ qorJobName), s)
  else
    match getJobInstance s qorJobID with
    | .error e => (.error e, s)
    | .ok inst =>
      match doAbortJob bk inst s with
      | (.error e, s1) => (.error e, s1)
      | (.ok _, s1) => (.ok { reload := true, varsScript := "", body := none }, s1)

/-- `Builder.eventRerunJob`: permission check, lookup, load the current
instance; errors unless its status is Done; otherwise persists a
brand-new instance with the old instance's args under the same job id
and enqueues it. -/
def eventRerunJob (b : Builder) (bk : Backend) (canEdit : Bool)
    (qorJobID : Nat) (qorJobName : String) (s : EngineState) :
    Except String EventResponse × EngineState :=
  if ¬ canEdit then (.error "permission denied", s)
  else if qorJobName ∉ b.jbs then (.error ("no job " ++ qorJobName), s)
  else
    match getJobInstance s qorJobID with
    | .error e => (.error e, s)
    | .ok old =>
      if old.status ≠ JobStatusDone then (.error "job is not done", s)
      else
        let r := newJobInstance s qorJobID qorJobName old.args
        match qAdd bk r.1 r.2 with
        | (.error e, s2) => (.error e, s2)
        | (.ok _, s2) =>
          (.ok { reload := true,
                 varsScript := "vars.worker_updateJobProgressingInterval = 2000",
                 body := none }, s2)

/-- `Builder.eventUpdateJob`: permission check, lookup, re-parse of the
form arguments (`unmarshalForm`, whose outcome is the `formResult`
parameter) before anything else; then load the current instance, abort
it through the same `doAbortJob` dispatch (a failure aborts the whole
update), persist a fresh instance with the new args under the same job
id, and enqueue it. -/
def eventUpdateJob (b : Builder) (bk : Backend) (canEdit : Bool)
    (formResult : Except String String)
    (qorJobID : Nat) (qorJobName : String) (s : EngineState) :
    Except String EventResponse × EngineState :=
  if ¬ canEdit then (.error "permission denied", s)
  else if qorJobName ∉ b.jbs then (.error ("no job " ++ qorJobName), s)
  else
    match formResult with
    | .error e => (.error e, s)
    | .ok newArgs =>
      match getJobInstance s qorJobID with
      | .error e => (.error e, s)
      | .ok old =>
        match doAbortJob bk old s with
        | (.error e, s1) => (.error e, s1)
        | (.ok _, s1) =>
          let r := newJobInstance s1 qorJobID qorJobName newArgs
          match qAdd bk r.1 r.2 with
          | (.error e, s3) => (.error e, s3)
          | (.ok _, s3) =>
            (.ok { reload := true,
                   varsScript := "vars.worker_updateJobProgressingInterval = 2000",
                   body := none }, s3)

/-- `Builder.eventUpdateJobProgressing`: loads the current instance row,
renders `jobProgressing` with the edit-permission outcome, and sets the
refresh interval — `0` when the status is neither New nor Running,
`2000` otherwise.  No permission check gates the data. -/
def eventUpdateJobProgressing (canEdit : Bool) (qorJobID : Nat)
    (qorJobName : String) (s : EngineState) :
    Except String EventResponse × EngineState :=
  match getModelQorJobInstance s qorJobID with
  | .error e => (.error e, s)
  | .ok inst =>
    let body := jobProgressing canEdit qorJobID qorJobName inst.status
      inst.progress inst.log inst.progressText
    let script :=
      if inst.status ≠ JobStatusNew ∧ inst.status ≠ JobStatusRunning then
        "vars.worker_updateJobProgressingInterval = 0"
      else
        "vars.worker_updateJobProgressingInterval = 2000"
    (.ok { reload := false, varsScript := script, body := some body }, s)

/-- The editing `SaveFunc` installed by `Builder.Configure`: permission
check, `mustGetJobBuilder` (panic modelled as error), `unmarshalForm`
(outcome in `formResult`); then the closure passed to `db.Transaction`.
The closure performs its writes through the outer db handle —
`b.db.Create(&j)` and `jb.newJobInstance` use `b.db`, not the
transaction handle `tx` it receives — so under gorm semantics those
writes are separate implicit transactions that are NOT rolled back when
the closure returns an error; only `tx`-writes would be, and there are
none.  The model therefore keeps the job row and instance row in the
state when the final `q.Add` fails. -/
def saveFunc (b : Builder) (bk : Backend) (canEdit : Bool)
    (formResult : Except String String) (jobName : String) (s : EngineState) :
    Except String Unit × EngineState :=
  if ¬ canEdit then (.error "permission denied", s)
  else if jobName ∉ b.jbs then (.error ("no job " ++ jobName), s)
  else
    match formResult with
    | .error e => (.error e, s)
    | .ok args =>
      let j : QorJob := { id := s.nextId, job := jobName, status := JobStatusNew }
      let s1 : EngineState := { s with jobs := j :: s.jobs, nextId := s.nextId + 1 }
      let r := newJobInstance s1 j.id jobName args
      qAdd bk r.1 r.2

/-! ## Helper lemmas -/

theorem pred_of_filter_eq_singleton {α : Type} {p : α → Bool} {l : List α} {a : α}
    (h : l.filter p = [a]) : p a = true := by
  have ha : a ∈ l.filter p := by rw [h]; exact List.mem_singleton_self a
  exact (List.mem_filter.mp ha).2

theorem find?_of_filter_eq_singleton {α : Type} {p : α → Bool} :
    ∀ {l : List α} {a : α}, l.filter p = [a] → l.find? p = some a := by
  intro l
  induction l with
  | nil => intro a h; simp at h
  | cons x t ih =>
    intro a h
    by_cases hx : p x = true
    · rw [List.filter_cons_of_pos hx] at h
      obtain ⟨h1, _⟩ := List.cons_eq_cons.mp h
      rw [List.find?_cons_of_pos _ hx, h1]
    · rw [List.filter_cons_of_neg hx] at h
      rw [List.find?_cons_of_neg _ hx]
      exact ih h

theorem filter_setInstanceStatus (id : Nat) (st : String) :
    ∀ (l : List QorJobInstance) (old : QorJobInstance),
      l.filter (fun i => i.qorJobId == id) = [old] →
      (setInstanceStatus l id st).filter (fun i => i.qorJobId == id)
        = [{ old with status := st }] := by
  intro l
  induction l with
  | nil => intro old h; simp at h
  | cons x t ih =>
    intro old h
    by_cases hx : (x.qorJobId == id) = true
    · rw [@List.filter_cons_of_pos _ (fun i => i.qorJobId == id) x t hx] at h
      obtain ⟨h1, h2⟩ := List.cons_eq_cons.mp h
      subst h1
      have hset : setInstanceStatus (x :: t) id st = { x with status := st } :: t := by
        simp [setInstanceStatus, hx]
      rw [hset, @List.filter_cons_of_pos _ (fun i => i.qorJobId == id)
        { x with status := st } t (by simpa using hx), h2]
    · rw [@List.filter_cons_of_neg _ (fun i => i.qorJobId == id) x t hx] at h
      have hset : setInstanceStatus (x :: t) id st = x :: setInstanceStatus t id st := by
        simp [setInstanceStatus, hx]
      rw [hset, @List.filter_cons_of_neg _ (fun i => i.qorJobId == id)
        x (setInstanceStatus t id st) hx]
      exact ih old h

/-- A failing `doAbortJob` makes no state change: every error branch of the
dispatch and of the two backend calls returns the input state. -/
theorem doAbortJob_error_frame {bk : Backend} {inst : QorJobInstance} {s : EngineState}
    {e : String} {s1 : EngineState}
    (h : doAbortJob bk inst s = (.error e, s1)) : s1 = s := by
  unfold doAbortJob qKill qRemove at h
  split_ifs at h <;> simp_all

/-! ## Concrete fixtures for witnesses and counterexamples -/

/-- A builder with one registered job type, already configured. -/
def bTest : Builder := { configured := true, jbs := ["send_emails"] }

/-- A backend on which every call succeeds. -/
def bkOk : Backend := { addFails := false, removeFails := false, killFails := false }

/-- A backend whose enqueue fails. -/
def bkAddFail : Backend := { addFails := true, removeFails := false, killFails := false }

/-- The store right after migration: no rows, nothing queued. -/
def emptyState : EngineState :=
  { nextId := 0, jobs := [], instances := [], queue := [], killRequested := [] }

/-! ## C1 -/

/-- C1 (code bug): the Submit save path wraps job creation in
`db.Transaction`, but the closure writes through the outer db handle
(`b.db.Create`, `jb.newJobInstance`) instead of the transaction handle
`tx`, so when the queue enqueue fails nothing is rolled back: evaluating
the save path with a failing enqueue returns the enqueue error, yet the
New `QorJob` row and its instance row remain persisted while the queue
holds no unit — exactly the orphaned state the claim rules out.
-/
theorem c1_submit_enqueue_failure_leaves_new_job_row :
    (saveFunc bTest bkAddFail true (.ok "to=a") "send_emails" emptyState).1
      = .error "queue: add failed"
    ∧ (saveFunc bTest bkAddFail true (.ok "to=a") "send_emails" emptyState).2.jobs
      = [{ id := 0, job := "send_emails", status := JobStatusNew }]
    ∧ (saveFunc bTest bkAddFail true (.ok "to=a") "send_emails" emptyState).2.instances
      = [mkInstance 0 "send_emails" "to=a"]
    ∧ (saveFunc bTest bkAddFail true (.ok "to=a") "send_emails" emptyState).2.queue
      = [] := by
  refine ⟨rfl, rfl, rfl, rfl⟩

/-! ## C3 -/

/-- C3: aborting a job whose current instance status is anything other than
Running, New or Scheduled (in particular the terminal statuses Done,
Exception, Cancelled, Killed) fails with the illegal-transition error
`"job status is <st>, cannot be aborted"` and performs no mutation: the
whole engine state is returned unchanged.
-/
theorem c3_abort_terminal_errors_without_mutation
    (b : Builder) (bk : Backend) (id : Nat) (name : String) (s : EngineState)
    (inst : QorJobInstance)
    (hreg : name ∈ b.jbs)
    (hget : getJobInstance s id = .ok inst)
    (h1 : inst.status ≠ JobStatusRunning)
    (h2 : inst.status ≠ JobStatusNew)
    (h3 : inst.status ≠ JobStatusScheduled) :
    eventAbortJob b bk true id name s
      = (.error ("job status is " ++ inst.status ++ ", cannot be aborted"), s) := by
  have habort : doAbortJob bk inst s
      = (.error ("job status is " ++ inst.status ++ ", cannot be aborted"), s) := by
    unfold doAbortJob
    rw [if_neg h1, if_neg (by simp [h2, h3])]
  unfold eventAbortJob
  rw [if_neg (by simp), if_neg (by simp [hreg]), hget]
  dsimp only
  rw [habort]

/-- A Done instance row for the C3 witness. -/
def instDone : QorJobInstance :=
  { qorJobId := 1, job := "send_emails", args := "to=a", status := "Done",
    progress := 100, log := "all sent", progressText := "" }

/-- A store holding job 1 with a single Done instance. -/
def doneState : EngineState :=
  { nextId := 2, jobs := [{ id := 1, job := "send_emails", status := "Done" }],
    instances := [instDone], queue := [], killRequested := [] }

theorem c3_witness :
    eventAbortJob bTest bkOk true 1 "send_emails" doneState
      = (.error ("job status is " ++ instDone.status ++ ", cannot be aborted"), doneState) :=
  c3_abort_terminal_errors_without_mutation bTest bkOk 1 "send_emails" doneState instDone
    (by decide) rfl (by decide) (by decide) (by decide)

/-! ## C7 -/

/-- C7: `NewJob` registration fails fatally (the source panics, modelled as
an error) when the builder is already configured or when a job type of
the same name is already registered; and a successful registration can
only have happened before activation, so the registry is never modified
after `Configure`.
-/
theorem c7_registration_after_configure_or_duplicate_fatal
    (b : Builder) (name : String) :
    (b.configured = true →
      NewJob b name = .error
        ("Job should be registered before Worker configured into admin, but "
          ++ name ++ " is registered after that"))
    ∧ (b.configured = false → name ∈ b.jbs →
      NewJob b name = .error ("worker " ++ name ++ " already exists"))
    ∧ (∀ b2, NewJob b name = .ok b2 → b.configured = false) := by
  refine ⟨fun hc => ?_, fun hc hdup => ?_, fun b2 hok => ?_⟩
  · unfold NewJob; rw [if_pos hc]
  · unfold NewJob; rw [if_neg (by simp [hc]), if_pos hdup]
  · by_cases hc : b.configured
    · unfold NewJob at hok; rw [if_pos hc] at hok; exact absurd hok (by simp)
    · simpa using hc

theorem c7_witness :
    NewJob { configured := true, jbs := [] } "send_emails"
      = .error ("Job should be registered before Worker configured into admin, but "
        ++ "send_emails" ++ " is registered after that") :=
  (c7_registration_after_configure_or_duplicate_fatal
    { configured := true, jbs := [] } "send_emails").1 rfl

/-! ## C9 -/

/-- C9: the progress query `eventUpdateJobProgressing` is read-only — for
every caller and every store it returns the state it was given, and any
number of repeated calls leaves every Job and Job Instance row (indeed
the whole engine state) exactly as it was.
-/
theorem c9_progress_query_read_only
    (canEdit : Bool) (id : Nat) (name : String) (s : EngineState) :
    (eventUpdateJobProgressing canEdit id name s).2 = s
    ∧ ∀ n : Nat,
        Nat.iterate (fun st => (eventUpdateJobProgressing canEdit id name st).2) n s = s := by
  have hframe : ∀ t : EngineState, (eventUpdateJobProgressing canEdit id name t).2 = t := by
    intro t
    unfold eventUpdateJobProgressing
    cases h : getModelQorJobInstance t id <;> simp
  refine ⟨hframe s, fun n => ?_⟩
  induction n with
  | zero => rfl
  | succ k ih => rw [Function.iterate_succ_apply, hframe, ih]

/-! ## C4 -/

/-- C4: Rerun succeeds only when the current instance's status is Done — on
any other status it fails with `"job is not done"` and changes nothing —
and on Done (with the backend enqueue succeeding and no live unit left
for the id) it persists a brand-new instance under the same Job id whose
args are the prior instance's args copied verbatim and whose status is
New, and enqueues it.
-/
theorem c4_rerun_only_done_copies_args
    (b : Builder) (bk : Backend) (id : Nat) (name : String) (s : EngineState)
    (old : QorJobInstance)
    (hreg : name ∈ b.jbs)
    (hget : getJobInstance s id = .ok old) :
    (old.status ≠ JobStatusDone →
      eventRerunJob b bk true id name s = (.error "job is not done", s))
    ∧ (old.status = JobStatusDone → bk.addFails = false →
        id ∉ s.queue →
        eventRerunJob b bk true id name s
          = (.ok { reload := true,
                   varsScript := "vars.worker_updateJobProgressingInterval = 2000",
                   body := none },
             { s with instances := mkInstance id name old.args :: s.instances,
                      queue := id :: s.queue })) := by
  constructor
  · intro hnd
    unfold eventRerunJob
    rw [if_neg (by simp), if_neg (by simp [hreg]), hget]
    dsimp only
    rw [if_pos hnd]
  · intro hd haf hq
    have hadd : qAdd bk (newJobInstance s id name old.args).1 (newJobInstance s id name old.args).2
        = (.ok (), { s with instances := mkInstance id name old.args :: s.instances,
                            queue := id :: s.queue }) := by
      unfold qAdd newJobInstance
      rw [if_neg (by simp [haf]), if_neg (by simp [mkInstance, hq])]
      rfl
    unfold eventRerunJob
    rw [if_neg (by simp), if_neg (by simp [hreg]), hget]
    dsimp only
    rw [if_neg (by simp [hd]), hadd]

theorem c4_witness :
    eventRerunJob bTest bkOk true 1 "send_emails" doneState
      = (.ok { reload := true,
               varsScript := "vars.worker_updateJobProgressingInterval = 2000",
               body := none },
         { doneState with
             instances := mkInstance 1 "send_emails" instDone.args :: doneState.instances,
             queue := 1 :: doneState.queue }) :=
  (c4_rerun_only_done_copies_args bTest bkOk 1 "send_emails" doneState instDone
    (by decide) rfl).2 rfl rfl (by decide)

/-! ## C5 -/

/-- C5: Update re-parses the raw arguments first (a parse failure returns it
before anything is touched); it then aborts the existing instance with
the very same `doAbortJob` dispatch as Abort, and an abort failure fails
the whole Update with no new instance created or enqueued (the state is
exactly the input state); when the abort succeeds (and the enqueue
does), a fresh instance with the new args is persisted under the same
Job id — the job's identity is unchanged — and enqueued.
-/
theorem c5_update_parse_abort_then_fresh_instance
    (b : Builder) (bk : Backend) (id : Nat) (name : String) (s : EngineState)
    (hreg : name ∈ b.jbs) :
    (∀ e, eventUpdateJob b bk true (.error e) id name s = (.error e, s))
    ∧ (∀ args old e s1, getJobInstance s id = .ok old →
        doAbortJob bk old s = (.error e, s1) →
        eventUpdateJob b bk true (.ok args) id name s = (.error e, s))
    ∧ (∀ args old s1, getJobInstance s id = .ok old →
        doAbortJob bk old s = (.ok (), s1) →
        bk.addFails = false → id ∉ s1.queue →
        eventUpdateJob b bk true (.ok args) id name s
          = (.ok { reload := true,
                   varsScript := "vars.worker_updateJobProgressingInterval = 2000",
                   body := none },
             { s1 with instances := mkInstance id name args :: s1.instances,
                       queue := id :: s1.queue })) := by
  refine ⟨fun e => ?_, fun args old e s1 hget habort => ?_, fun args old s1 hget habort haf hq => ?_⟩
  · unfold eventUpdateJob
    rw [if_neg (by simp), if_neg (by simp [hreg])]
  · have hs1 : s1 = s := doAbortJob_error_frame habort
    subst hs1
    unfold eventUpdateJob
    rw [if_neg (by simp), if_neg (by simp [hreg])]
    dsimp only
    rw [hget]
    dsimp only
    rw [habort]
  · have hadd : qAdd bk (newJobInstance s1 id name args).1 (newJobInstance s1 id name args).2
        = (.ok (), { s1 with instances := mkInstance id name args :: s1.instances,
                             queue := id :: s1.queue }) := by
      unfold qAdd newJobInstance
      rw [if_neg (by simp [haf]), if_neg (by simp [mkInstance, hq])]
      rfl
    unfold eventUpdateJob
    rw [if_neg (by simp), if_neg (by simp [hreg])]
    dsimp only
    rw [hget]
    dsimp only
    rw [habort]
    dsimp only
    rw [hadd]

/-- A still-pending New instance for the C5/C6 witnesses. -/
def instNew : QorJobInstance :=
  { qorJobId := 2, job := "send_emails", args := "to=a", status := "New",
    progress := 0, log := "", progressText := "" }

/-- A store holding job 2 with its New instance and the queued unit. -/
def newQueuedState : EngineState :=
  { nextId := 3, jobs := [{ id := 2, job := "send_emails", status := "New" }],
    instances := [instNew], queue := [2], killRequested := [] }

/-- `newQueuedState` after the queued unit is removed and the instance is
marked Cancelled. -/
def cancelledState : EngineState :=
  { nextId := 3, jobs := [{ id := 2, job := "send_emails", status := "New" }],
    instances := [{ instNew with status := "Cancelled" }], queue := [],
    killRequested := [] }

theorem c5_witness :
    eventUpdateJob bTest bkOk true (.ok "to=b") 2 "send_emails" newQueuedState
      = (.ok { reload := true,
               varsScript := "vars.worker_updateJobProgressingInterval = 2000",
               body := none },
         { cancelledState with
             instances := mkInstance 2 "send_emails" "to=b" :: cancelledState.instances,
             queue := 2 :: cancelledState.queue }) :=
  (c5_update_parse_abort_then_fresh_instance bTest bkOk 2 "send_emails" newQueuedState
    (by decide)).2.2 "to=b" instNew cancelledState rfl rfl rfl (by decide)

/-! ## C6 -/

/-- C6: for a New or Scheduled instance, Abort's dispatch asks the queue
backend to remove the not-yet-started unit — the unit leaves the queue
(when it was queued exactly once nothing remains for a later dequeue)
and the current instance is marked Cancelled; for a Running instance it
asks the backend to kill the executing unit and returns once the request
is recorded: the instance rows and the queue are untouched, so the
engine does not wait for termination.  The Remove/Kill effects are the
spec's queue-backend contract (that adapter's source is not available).
-/
theorem c6_abort_new_scheduled_cancels_running_kills
    (bk : Backend) (inst : QorJobInstance) (s : EngineState)
    (hrm : bk.removeFails = false) (hk : bk.killFails = false)
    (hq : inst.qorJobId ∈ s.queue) :
    ((inst.status = JobStatusNew ∨ inst.status = JobStatusScheduled) →
      doAbortJob bk inst s
        = (.ok (), { s with queue := s.queue.erase inst.qorJobId,
                            instances := setInstanceStatus s.instances inst.qorJobId JobStatusCancelled })
      ∧ (s.queue.count inst.qorJobId = 1 →
          inst.qorJobId ∉ s.queue.erase inst.qorJobId)
      ∧ (∀ old, instancesFor s inst.qorJobId = [old] →
          instancesFor
            { s with queue := s.queue.erase inst.qorJobId,
                     instances := setInstanceStatus s.instances inst.qorJobId JobStatusCancelled }
            inst.qorJobId
            = [{ old with status := JobStatusCancelled }]))
    ∧ (inst.status = JobStatusRunning →
      doAbortJob bk inst s
        = (.ok (), { s with killRequested := inst.qorJobId :: s.killRequested })) := by
  constructor
  · intro hns
    have hnr : inst.status ≠ JobStatusRunning := by
      rcases hns with h | h <;> simp [h, JobStatusNew, JobStatusScheduled, JobStatusRunning]
    refine ⟨?_, fun hcount => ?_, fun old hold => ?_⟩
    · unfold doAbortJob qRemove
      rw [if_neg hnr, if_pos hns, if_neg (by simp [hrm]), if_pos ⟨hq, hns⟩]
    · have hzero : (s.queue.erase inst.qorJobId).count inst.qorJobId = 0 := by
        rw [List.count_erase_self, hcount]
      exact List.count_eq_zero.mp hzero
    · exact filter_setInstanceStatus inst.qorJobId JobStatusCancelled s.instances old hold
  · intro hr
    unfold doAbortJob qKill
    rw [if_pos hr, if_neg (by simp [hk]), if_pos ⟨hq, hr⟩]

theorem c6_witness :
    doAbortJob bkOk instNew newQueuedState = (.ok (), cancelledState)
    ∧ instNew.qorJobId ∉ newQueuedState.queue.erase instNew.qorJobId
    ∧ instancesFor cancelledState instNew.qorJobId
        = [{ instNew with status := JobStatusCancelled }] := by
  have h := (c6_abort_new_scheduled_cancels_running_kills bkOk instNew newQueuedState
    rfl rfl (by decide)).1 (Or.inl rfl)
  exact ⟨h.1, h.2.1 rfl, h.2.2 instNew rfl⟩

/-! ## C8 -/

/-- The `VarsScript` of a successful event response. -/
def responseVarsScript (r : Except String EventResponse) : Option String :=
  match r with
  | .ok er => some er.varsScript
  | .error _ => none

/-- A deferred Scheduled instance row. -/
def instScheduled : QorJobInstance :=
  { qorJobId := 3, job := "send_emails", args := "to=a", status := "Scheduled",
    progress := 0, log := "", progressText := "" }

/-- A store holding job 3 with its Scheduled instance and queued unit. -/
def scheduledState : EngineState :=
  { nextId := 4, jobs := [{ id := 3, job := "send_emails", status := "Scheduled" }],
    instances := [instScheduled], queue := [3], killRequested := [] }

/-- C8 counterexample: for a Scheduled instance the progress query sets the
refresh interval to 0, yet Scheduled is not a terminal status — so the
interval is not 2000 exactly on the non-terminal statuses and the
refresh loop is not stopped exactly on the terminal ones.
-/
theorem c8_counterexample_scheduled_stops_polling :
    responseVarsScript (eventUpdateJobProgressing true 3 "send_emails" scheduledState).1
      = some "vars.worker_updateJobProgressingInterval = 0"
    ∧ isTerminal JobStatusScheduled = false :=
  ⟨rfl, rfl⟩

/-- C8 (amended): the progress query sets the refresh interval to 2000
exactly when the returned status is New or Running, and to 0 for every
other status — the terminal ones and also the non-terminal Scheduled.
-/
theorem c8_interval_2000_iff_new_or_running
    (canEdit : Bool) (id : Nat) (name : String) (s : EngineState)
    (inst : QorJobInstance)
    (hget : getModelQorJobInstance s id = .ok inst) :
    (responseVarsScript (eventUpdateJobProgressing canEdit id name s).1
        = some "vars.worker_updateJobProgressingInterval = 2000"
      ↔ (inst.status = JobStatusNew ∨ inst.status = JobStatusRunning))
    ∧ (responseVarsScript (eventUpdateJobProgressing canEdit id name s).1
        = some "vars.worker_updateJobProgressingInterval = 0"
      ↔ ¬(inst.status = JobStatusNew ∨ inst.status = JobStatusRunning)) := by
  unfold eventUpdateJobProgressing
  rw [hget]
  dsimp only
  unfold responseVarsScript
  by_cases hC : inst.status = JobStatusNew ∨ inst.status = JobStatusRunning
  · rw [if_neg (by rintro ⟨h1, h2⟩; rcases hC with h | h; exact h1 h; exact h2 h)]
    dsimp only
    exact ⟨⟨fun _ => hC, fun _ => rfl⟩,
           ⟨fun h => absurd h (by decide), fun h => absurd hC h⟩⟩
  · rw [if_pos ⟨fun h => hC (Or.inl h), fun h => hC (Or.inr h)⟩]
    dsimp only
    exact ⟨⟨fun h => absurd h (by decide), fun h => absurd h hC⟩,
           ⟨fun _ => hC, fun _ => rfl⟩⟩

theorem c8_witness :
    (responseVarsScript (eventUpdateJobProgressing true 3 "send_emails" scheduledState).1
        = some "vars.worker_updateJobProgressingInterval = 2000"
      ↔ (instScheduled.status = JobStatusNew ∨ instScheduled.status = JobStatusRunning))
    ∧ (responseVarsScript (eventUpdateJobProgressing true 3 "send_emails" scheduledState).1
        = some "vars.worker_updateJobProgressingInterval = 0"
      ↔ ¬(instScheduled.status = JobStatusNew ∨ instScheduled.status = JobStatusRunning)) :=
  c8_interval_2000_iff_new_or_running true 3 "send_emails" scheduledState instScheduled rfl

/-! ## C10 -/

/-- The same event response with the permission-gated buttons block
cleared from the body, for comparing runs under different callers. -/
def scrubButtons (r : Except String EventResponse) : Except String EventResponse :=
  match r with
  | .error e => .error e
  | .ok er => .ok { er with body := er.body.map (fun pb => { pb with buttons := none }) }

/-- The buttons block of a successful response with a body. -/
def responseButtons (r : Except String EventResponse) : Option (Option ProgressButtons) :=
  match r with
  | .ok er => er.body.map (fun pb => pb.buttons)
  | .error _ => none

/-- C10: the progress query performs no permission check on the data path —
two runs that differ only in the caller's edit permission return the
same outcome (same error, or same status line, progress value, log
lines and progress text) up to the buttons block; the permission result
only decides whether the abort/rerun buttons block is rendered: absent
without edit permission, present (abort while New/Running, rerun when
Done) with it.
-/
theorem c10_progress_data_independent_of_permission
    (cA cB : Bool) (id : Nat) (name : String) (s : EngineState) :
    scrubButtons (eventUpdateJobProgressing cA id name s).1
      = scrubButtons (eventUpdateJobProgressing cB id name s).1
    ∧ (∀ inst, getModelQorJobInstance s id = .ok inst →
        responseButtons (eventUpdateJobProgressing false id name s).1 = some none
        ∧ responseButtons (eventUpdateJobProgressing true id name s).1
            = some (some
                { showAbort := inst.status == JobStatusNew || inst.status == JobStatusRunning,
                  showRerun := inst.status == JobStatusDone })) := by
  constructor
  · unfold eventUpdateJobProgressing
    cases h : getModelQorJobInstance s id
    · rfl
    · dsimp only
      unfold scrubButtons jobProgressing
      cases cA <;> cases cB <;> rfl
  · intro inst hinst
    unfold eventUpdateJobProgressing
    rw [hinst]
    dsimp only
    unfold responseButtons jobProgressing
    exact ⟨rfl, rfl⟩

theorem c10_witness :
    scrubButtons (eventUpdateJobProgressing true 1 "send_emails" doneState).1
      = scrubButtons (eventUpdateJobProgressing false 1 "send_emails" doneState).1
    ∧ responseButtons (eventUpdateJobProgressing false 1 "send_emails" doneState).1
        = some none
    ∧ responseButtons (eventUpdateJobProgressing true 1 "send_emails" doneState).1
        = some (some
            { showAbort := instDone.status == JobStatusNew || instDone.status == JobStatusRunning,
              showRerun := instDone.status == JobStatusDone }) := by
  have h := c10_progress_data_independent_of_permission true false 1 "send_emails" doneState
  exact ⟨h.1, (h.2 instDone rfl).1, (h.2 instDone rfl).2⟩

/-! ## C2 -/

/-- A Running instance row. -/
def instRunning : QorJobInstance :=
  { qorJobId := 5, job := "send_emails", args := "to=a", status := "Running",
    progress := 40, log := "working", progressText := "" }

/-- A store holding job 5 with its Running instance and live unit. -/
def runningState : EngineState :=
  { nextId := 6, jobs := [{ id := 5, job := "send_emails", status := "Running" }],
    instances := [instRunning], queue := [5], killRequested := [] }

/-- C2 counterexample: from a store with exactly one non-terminal instance
for job 5 (its status Running), invoking Update leaves TWO non-terminal
instance rows for job 5 — the kill of the running unit is only an
asynchronous request, so the old instance stays Running, while the new
instance row (status New) has already been persisted before the enqueue
(which then fails on the still-live unit).
-/
theorem c2_counterexample_update_on_running :
    nonTerminalInstanceCount runningState 5 = 1
    ∧ nonTerminalInstanceCount
        (eventUpdateJob bTest bkOk true (.ok "to=b") 5 "send_emails" runningState).2 5 = 2 :=
  ⟨rfl, rfl⟩

/-- C2 (amended): the at-most-one-non-terminal-instance invariant is kept by
Update when the prior instance is New or Scheduled (the old instance is
marked Cancelled before the new one is persisted and enqueued) and by
Rerun on a Done instance — but not by Update on a Running instance,
whose kill is only requested asynchronously while a fresh New instance
row is persisted alongside it.
-/
theorem c2_update_new_scheduled_and_rerun_done_single_nonterminal
    (b : Builder) (bk : Backend) (id : Nat) (name : String) (s : EngineState)
    (old : QorJobInstance)
    (hreg : name ∈ b.jbs)
    (hrm : bk.removeFails = false) (had : bk.addFails = false)
    (hinst : instancesFor s id = [old]) :
    ((old.status = JobStatusNew ∨ old.status = JobStatusScheduled) →
      id ∈ s.queue → id ∉ s.queue.erase id →
      ∀ args, nonTerminalInstanceCount
        (eventUpdateJob b bk true (.ok args) id name s).2 id = 1)
    ∧ (old.status = JobStatusDone → id ∉ s.queue →
      nonTerminalInstanceCount (eventRerunJob b bk true id name s).2 id = 1) := by
  have hinstf : s.instances.filter (fun i => i.qorJobId == id) = [old] := hinst
  have hoid : old.qorJobId = id := by
    have := pred_of_filter_eq_singleton hinstf
    simpa using this
  have hget : getJobInstance s id = .ok old := by
    unfold getJobInstance
    rw [find?_of_filter_eq_singleton hinstf]
  constructor
  · intro hst hqin hqerase args
    have hnr : old.status ≠ JobStatusRunning := by
      rcases hst with h | h <;>
        simp [h, JobStatusNew, JobStatusScheduled, JobStatusRunning]
    have habort : doAbortJob bk old s
        = (.ok (), { s with queue := s.queue.erase id,
                            instances := setInstanceStatus s.instances id JobStatusCancelled }) := by
      unfold doAbortJob qRemove
      rw [if_neg hnr, if_pos hst, if_neg (by simp [hrm]),
        if_pos ⟨by rw [hoid]; exact hqin, hst⟩, hoid]
    have hadd : qAdd bk
        (newJobInstance
          { s with queue := s.queue.erase id,
                   instances := setInstanceStatus s.instances id JobStatusCancelled }
          id name args).1
        (newJobInstance
          { s with queue := s.queue.erase id,
                   instances := setInstanceStatus s.instances id JobStatusCancelled }
          id name args).2
        = (.ok (), { s with
            instances := mkInstance id name args
              :: setInstanceStatus s.instances id JobStatusCancelled,
            queue := id :: s.queue.erase id }) := by
      unfold qAdd newJobInstance
      rw [if_neg (by simp [had]), if_neg (by simp [mkInstance, hqerase])]
      rfl
    have hev : eventUpdateJob b bk true (.ok args) id name s
        = (.ok { reload := true,
                 varsScript := "vars.worker_updateJobProgressingInterval = 2000",
                 body := none },
           { s with
             instances := mkInstance id name args
               :: setInstanceStatus s.instances id JobStatusCancelled,
             queue := id :: s.queue.erase id }) := by
      unfold eventUpdateJob
      rw [if_neg (by simp), if_neg (by simp [hreg])]
      dsimp only
      rw [hget]
      dsimp only
      rw [habort]
      dsimp only
      rw [hadd]
    rw [hev]
    unfold nonTerminalInstanceCount instancesFor
    dsimp only
    rw [@List.filter_cons_of_pos _ (fun i => i.qorJobId == id) (mkInstance id name args) _
        (by simp [mkInstance]),
      filter_setInstanceStatus id JobStatusCancelled s.instances old hinstf]
    rfl
  · intro hd hqout
    have hadd : qAdd bk (newJobInstance s id name old.args).1 (newJobInstance s id name old.args).2
        = (.ok (), { s with instances := mkInstance id name old.args :: s.instances,
                            queue := id :: s.queue }) := by
      unfold qAdd newJobInstance
      rw [if_neg (by simp [had]), if_neg (by simp [mkInstance, hqout])]
      rfl
    have hev : eventRerunJob b bk true id name s
        = (.ok { reload := true,
                 varsScript := "vars.worker_updateJobProgressingInterval = 2000",
                 body := none },
           { s with instances := mkInstance id name old.args :: s.instances,
                    queue := id :: s.queue }) := by
      unfold eventRerunJob
      rw [if_neg (by simp), if_neg (by simp [hreg]), hget]
      dsimp only
      rw [if_neg (by simp [hd]), hadd]
    rw [hev]
    unfold nonTerminalInstanceCount instancesFor
    dsimp only
    rw [@List.filter_cons_of_pos _ (fun i => i.qorJobId == id) (mkInstance id name old.args) _
        (by simp [mkInstance]),
      hinstf,
      @List.filter_cons_of_pos _ (fun i => !(isTerminal i.status)) (mkInstance id name old.args) _
        (by simp [mkInstance, isTerminal, JobStatusNew, JobStatusCancelled, JobStatusDone,
          JobStatusException, JobStatusKilled]),
      @List.filter_cons_of_neg _ (fun i => !(isTerminal i.status)) old []
        (by simp [isTerminal, hd, JobStatusDone])]
    rfl

theorem c2_witness :
    nonTerminalInstanceCount
      (eventUpdateJob bTest bkOk true (.ok "to=c") 2 "send_emails" newQueuedState).2 2 = 1 :=
  (c2_update_new_scheduled_and_rerun_done_single_nonterminal bTest bkOk 2 "send_emails"
    newQueuedState instNew (by decide) rfl rfl rfl).1
    (Or.inl rfl) (by decide) (by decide) "to=c"

end Worker
